import Mathlib

/-!
Shallow embedding of the k6 CRUD benchmark scripts of this repository
(`src/benchmark.js` and the unnamed variant `src/unnamed/part_000`).

The scripts are single-threaded per virtual user and purely sequential
inside one iteration, so each exported function is embedded as a pure
Lean function from the responses the HTTP collaborator would return to
a trace of the requests issued, the latency samples added to the four
`Trend` accumulators, the `sleep` pauses performed and the `check`
outcomes recorded.  JavaScript numbers appearing here are non-negative
integers (virtual-user index, iteration counter, epoch milliseconds) or
millisecond durations, modelled as `Nat` and `Rat` respectively;
`parseInt` failure (`NaN`) is modelled as `none`.
-/

namespace Bench

/-- A JSON value as far as the scripts inspect one: the scripts only read
the `id` field of a response body via `r.json('id')`. -/
inductive JsonVal where
  | vNull : JsonVal
  | vNum : Int → JsonVal
  | vStr : String → JsonVal
deriving DecidableEq, Repr

/-- Result of `r.json('id')`: `none` models a missing field (JavaScript
`undefined`), `some v` a present field with value `v`. -/
abbrev JsonId := Option JsonVal

/-- JavaScript truthiness of the extracted `id`, the gate of
`if (bookId) { ... }`: `undefined`, `null`, the number `0` and the empty
string are falsy, every other number or string is truthy. -/
def jsTruthy : JsonId → Bool
  | none => false
  | some .vNull => false
  | some (.vNum n) => n != 0
  | some (.vStr s) => s != ""

/-- The recorded check `r.json('id') !== null` (strict inequality):
only a literal JSON `null` fails it; a missing field (`undefined`) passes
because `undefined !== null` in JavaScript. -/
def jsNeNull : JsonId → Bool
  | some .vNull => false
  | _ => true

/-- What the scripts observe of one HTTP response: the status code, the
request duration in milliseconds (`timings.duration`) and the body's `id`
field (only ever read on the POST response). -/
structure Response where
  status : Int
  duration : Rat
  body_id : JsonId
deriving DecidableEq, Repr

/-- The four operation kinds of the CRUD workload unit. -/
inductive OpKind where
  | create : OpKind
  | read : OpKind
  | update : OpKind
  | delete : OpKind
deriving DecidableEq, Repr

/-- Trace of one execution of the measurement-phase workload unit (the
`default` export): HTTP requests issued in order, samples added to the
latency trends in order, number of `sleep(0.1)` pauses (100 ms each) and
recorded check outcomes in order. -/
structure UnitTrace where
  requests : List OpKind
  samples : List (OpKind × Rat)
  sleeps : Nat
  checks : List (String × Bool)
deriving DecidableEq, Repr

/-- One observable event of a workload-unit execution: an HTTP request of
a given kind is issued, a latency sample is added to the trend of a given
kind, a named check is recorded with its outcome, or the unit suspends in
`sleep(0.1)` (one fixed 100 ms pause). -/
inductive Ev where
  | req : OpKind → Ev
  | sample : OpKind → Rat → Ev
  | chk : String → Bool → Ev
  | pause : Ev
deriving DecidableEq, Repr

/-- The measurement-phase CRUD workload unit, `export default function` of
`src/benchmark.js` lines 104-180 (identical control flow in
`src/unnamed/part_000` lines 107-177), as its sequence of observable
events.  `env k` is the response the target service returns to the
request of kind `k` in this iteration.  The POST is always issued and its
duration always added to `createLatency`; the GET, PUT and DELETE steps
and all four 100 ms pauses run only under `if (bookId)`, i.e. when the
extracted id is truthy. -/
def runUnitEvents (env : OpKind → Response) : List Ev :=
  let post := env .create
  [.req .create, .sample .create post.duration,
   .chk "POST status is 200" (post.status == 200),
   .chk "POST response has ID" (jsNeNull post.body_id)] ++
  if jsTruthy post.body_id then
    let getR := env .read
    let putR := env .update
    let delR := env .delete
    [.pause,
     .req .read, .sample .read getR.duration,
     .chk "GET status is 200" (getR.status == 200),
     .pause,
     .req .update, .sample .update putR.duration,
     .chk "PUT status is 200" (putR.status == 200),
     .pause,
     .req .delete, .sample .delete delR.duration,
     .chk "DELETE status is 200" (delR.status == 200),
     .pause]
  else []

/-- The aggregate view of one workload-unit execution, read off the event
sequence. -/
def runUnit (env : OpKind → Response) : UnitTrace :=
  { requests := (runUnitEvents env).filterMap fun e =>
      match e with | .req k => some k | _ => none
    samples := (runUnitEvents env).filterMap fun e =>
      match e with | .sample k d => some (k, d) | _ => none
    sleeps := (runUnitEvents env).count .pause
    checks := (runUnitEvents env).filterMap fun e =>
      match e with | .chk n b => some (n, b) | _ => none }

/-- Trace of the warm-up phase (`setup`): requests issued before the
measurement window opens, and the samples it adds to the four latency
trends — the source's `setup` never calls `.add` on any trend, which the
embedding records as the (constantly empty) `trendSamples` field. -/
structure WarmupTrace where
  requests : List OpKind
  trendSamples : List (OpKind × Rat)
deriving DecidableEq, Repr

/-- Requests issued by one warm-up iteration of `setup`
(`src/benchmark.js` lines 80-97): one POST, then — only if the returned
id is truthy — one GET, one PUT and one DELETE. -/
def warmupIter (r : OpKind → Response) : List OpKind :=
  if jsTruthy (r .create).body_id then [.create, .read, .update, .delete]
  else [.create]

/-- The warm-up phase controller, `export function setup` of
`src/benchmark.js` lines 65-102: if `WARMUP_ITERATIONS > 0` it loops
`i = 0 .. W-1`, running one warm-up iteration per `i`; `wenv i k` is the
service's response to the request of kind `k` in iteration `i`.  No
latency trend is ever fed. -/
def setupWarmup (W : Nat) (wenv : Nat → OpKind → Response) : WarmupTrace :=
  if W > 0 then
    { requests := (List.range W).flatMap (fun i => warmupIter (wenv i))
      trendSamples := [] }
  else
    { requests := [], trendSamples := [] }

/-- Base-10 digits of `n`, least significant first, computed with
explicit fuel so that the definition is structurally recursive (and hence
kernel-evaluable); with `n ≤ fuel` it agrees with `Nat.digits 10 n`. -/
def natDigitsAux : Nat → Nat → List Nat
  | _, 0 => []
  | 0, _+1 => []
  | fuel+1, n+1 => (n + 1) % 10 :: natDigitsAux fuel ((n + 1) / 10)

/-- Decimal rendering of a non-negative integer, modelling JavaScript
number-to-string conversion inside template literals (`${__VU}` etc.) for
the integer values the scripts interpolate: the usual base-10 digit
string, most significant digit first. -/
def natToStr (n : Nat) : String :=
  if n = 0 then "0"
  else String.mk ((natDigitsAux n n).reverse.map fun d => Char.ofNat (48 + d))

/-- The measurement-phase book title, `` `Test Book ${__VU}_${__ITER}` ``
(`src/benchmark.js` line 106). -/
def testTitle (vu iter : Nat) : String :=
  "Test Book " ++ natToStr vu ++ "_" ++ natToStr iter

/-- The measurement-phase book author, `` `Test Author ${__VU}_${__ITER}` ``
(`src/benchmark.js` line 107). -/
def testAuthor (vu iter : Nat) : String :=
  "Test Author " ++ natToStr vu ++ "_" ++ natToStr iter

/-- The warm-up book title, `` `Warmup Book ${i}` `` (`src/benchmark.js`
line 82). -/
def warmupTitle (i : Nat) : String :=
  "Warmup Book " ++ natToStr i

/-- Two-digit zero-padded rendering of `k < 100`, the fractional part of
a fixed two-decimal rendering. -/
def pad2 (k : Nat) : String :=
  if k < 10 then "0" ++ natToStr k else natToStr k

/-- JavaScript `x.toFixed(2)`: the number rendered with exactly two
decimal places, rounding to the nearest hundredth (ties up).  All values
the claims evaluate are exact hundredths, where every rounding convention
agrees. -/
def toFixed2 (q : Rat) : String :=
  let scaled : Int := round (q * 100)
  let sign := if scaled < 0 then "-" else ""
  sign ++ natToStr (scaled.natAbs / 100) ++ "." ++ pad2 (scaled.natAbs % 100)

/-- A k6 `Trend` accumulator: the list of recorded samples, in order. -/
abbrev Trend := List Rat

/-- The `avg` statistic k6 computes for a trend with at least one sample:
the arithmetic mean of its samples. -/
def Trend.avg (t : Trend) : Rat := t.sum / t.length

/-- What `handleSummary`'s `data.metrics.<name>` exposes for one trend:
k6 omits a metric with no samples, so the guard
`data.metrics.X && data.metrics.X.values` fails exactly when the trend
recorded no sample; otherwise `values.avg` is the mean. -/
def trendMetric (t : Trend) : Option Rat :=
  if t.isEmpty then none else some t.avg

/-- The metrics record `handleSummary` receives: one optional average per
latency trend of the scripts. -/
structure Metrics where
  get_book_latency : Option Rat
  create_book_latency : Option Rat
  update_book_latency : Option Rat
  delete_book_latency : Option Rat
deriving DecidableEq, Repr

/-- The metrics produced by a run whose four trends hold the given
samples. -/
def metricsOf (g c u d : Trend) : Metrics :=
  { get_book_latency := trendMetric g
    create_book_latency := trendMetric c
    update_book_latency := trendMetric u
    delete_book_latency := trendMetric d }

/-- The metrics of the specification's scenario: three identical
iterations with create = 10 ms, read = 20 ms, update = 30 ms and
delete = 40 ms. -/
def scenarioMetrics : Metrics :=
  metricsOf [20, 20, 20] [10, 10, 10] [30, 30, 30] [40, 40, 40]

/-- Output of `handleSummary` of `src/unnamed/part_000`: the console log
lines and the k6 output map (key `"stdout"` or a file name, each with its
content), plus the intermediate averages for stating properties. -/
structure SummaryOut where
  logs : List String
  outputs : List (String × String)
  avgGet : Rat
  avgCreate : Rat
  avgUpdate : Rat
  avgDelete : Rat
  overall : Rat
deriving DecidableEq, Repr

/-- `export function handleSummary` of `src/unnamed/part_000` lines
179-227: each per-kind average defaults to `0` with a console warning when
its metric is absent, the overall average is the unweighted mean of the
four per-kind averages, and the returned map writes `"BookCatalog
benchmark complete"` to stdout and the CSV header plus one two-decimal
data row to `bookcatalog_results_<DATABASE_TYPE>_<Date.now()>.csv`. -/
def handleSummary (m : Metrics) (dbType : String) (now : Nat) : SummaryOut :=
  let avgGet := m.get_book_latency.getD 0
  let warnG := if m.get_book_latency.isNone
    then ["Warning: GET latency metrics not available"] else []
  let avgCreate := m.create_book_latency.getD 0
  let warnC := if m.create_book_latency.isNone
    then ["Warning: CREATE latency metrics not available"] else []
  let avgUpdate := m.update_book_latency.getD 0
  let warnU := if m.update_book_latency.isNone
    then ["Warning: UPDATE latency metrics not available"] else []
  let avgDelete := m.delete_book_latency.getD 0
  let warnD := if m.delete_book_latency.isNone
    then ["Warning: DELETE latency metrics not available"] else []
  let overall := (avgGet + avgCreate + avgUpdate + avgDelete) / 4
  let csvHeader := "get_latency,create_latency,update_latency,delete_latency,overall_latency\n"
  let csvRow := toFixed2 avgGet ++ "," ++ toFixed2 avgCreate ++ "," ++
    toFixed2 avgUpdate ++ "," ++ toFixed2 avgDelete ++ "," ++
    toFixed2 overall ++ "\n"
  let filename := "bookcatalog_results_" ++ dbType ++ "_" ++ natToStr now ++ ".csv"
  { logs := warnG ++ warnC ++ warnU ++ warnD ++
      ["=== BookCatalog Benchmark Results ===",
       "GET avg: " ++ toFixed2 avgGet ++ "ms",
       "CREATE avg: " ++ toFixed2 avgCreate ++ "ms",
       "UPDATE avg: " ++ toFixed2 avgUpdate ++ "ms",
       "DELETE avg: " ++ toFixed2 avgDelete ++ "ms",
       "Overall: " ++ toFixed2 overall ++ "ms"]
    outputs := [("stdout", "BookCatalog benchmark complete"),
                (filename, csvHeader ++ csvRow)]
    avgGet := avgGet
    avgCreate := avgCreate
    avgUpdate := avgUpdate
    avgDelete := avgDelete
    overall := overall }

/-- `export function handleSummary` of `src/benchmark.js` lines 182-189:
it returns only a `stdout` entry carrying `textSummary(data, ...)` (the
jslib text renderer, an external collaborator passed here as the already
rendered string `text`); no file entry is produced. -/
def handleSummaryJS (text : String) : List (String × String) :=
  [("stdout", text)]

/-- The entries of a k6 `handleSummary` output map that are written to
files: every key other than the reserved `"stdout"` (and `"stderr"`)
names a file to persist. -/
def fileOutputs (outs : List (String × String)) : List (String × String) :=
  outs.filter (fun p => p.1 != "stdout" && p.1 != "stderr")

/-- JavaScript `String.prototype.trim` on the character list of a line:
whitespace (space, tab, carriage return, newline) is removed from both
ends. -/
def listTrim (l : List Char) : List Char :=
  ((l.dropWhile Char.isWhitespace).reverse.dropWhile Char.isWhitespace).reverse

/-- Splitting a character list at every occurrence of the separator `c`,
the list-level meaning of the line split `content.split(/\r?\n/)` for
`c = '\n'` (a `\r` left before the split point is consumed by the
subsequent `trim`). -/
def splitOnChar (c : Char) : List Char → List (List Char)
  | [] => [[]]
  | x :: xs =>
    match splitOnChar c xs with
    | [] => [[]]
    | h :: t => if x = c then [] :: h :: t else (x :: h) :: t

/-- `indexOf`-and-slice at the first occurrence of `c`: `none` models
`indexOf === -1`, otherwise the characters strictly before and strictly
after the first occurrence. -/
def splitFirst (c : Char) : List Char → Option (List Char × List Char)
  | [] => none
  | x :: xs =>
    if x = c then some ([], xs)
    else (splitFirst c xs).map (fun p => (x :: p.1, p.2))

/-- A single- or double-quote character. -/
def isQuote (c : Char) : Bool := c = Char.ofNat 39 || c = Char.ofNat 34

/-- The value-cleaning step of `loadEnvFile`
(`.replace(/^['"]|['"]$/g, '')`): the regex deletes one leading and one
trailing quote character (single or double, independently, without
requiring them to match). -/
def stripQuotesL (l : List Char) : List Char :=
  let l1 := match l with
    | [] => []
    | x :: xs => if isQuote x then xs else x :: xs
  if (l1.getLast?.map isQuote).getD false then l1.dropLast else l1

/-- Processing of one line by `loadEnvFile`'s reducer
(`src/benchmark.js` lines 9-26): trim; skip blank lines and lines
beginning with `#`; skip lines without `=`; split at the first `=`, trim
the key and trim-and-unquote the value; keep the pair only when the key
is non-empty. -/
def parseEnvLine (line : String) : Option (String × String) :=
  let t := listTrim line.data
  if t.isEmpty || t.head? == some '#' then none
  else
    match splitFirst '=' t with
    | none => none
    | some (k, v) =>
      let key := listTrim k
      let value := stripQuotesL (listTrim v)
      if key.isEmpty then none else some (String.mk key, String.mk value)

/-- `loadEnvFile` (`src/benchmark.js` lines 6-31): `content = none` models
a missing or unreadable file (`open` threw, the `catch` returns `{}`,
i.e. no keys); otherwise the content is split into lines and each line
is parsed, later assignments overriding earlier ones — the resulting
object is modelled as the ordered list of kept key-value pairs. -/
def loadEnvFile (content : Option String) : List (String × String) :=
  match content with
  | none => []
  | some c => ((splitOnChar '\n' c.data).map String.mk).filterMap parseEnvLine

/-- Lookup in the object built by `loadEnvFile`'s reducer: the last
assignment to a key wins. -/
def envFileGet (kvs : List (String × String)) (k : String) : Option String :=
  (kvs.filter (fun p => p.1 == k)).getLast?.map (·.2)

/-- JavaScript `a || b` for the configuration chain, where `a` is an
optional string (`undefined` when the variable or key is absent) that is
falsy exactly when absent or empty. -/
def jsOr (a : Option String) (b : String) : String :=
  match a with
  | none => b
  | some v => if v = "" then b else v

/-- JavaScript `parseInt(s)` on the strings this script passes it
(base-10, no `0x` prefix arises): trim, take an optional sign, then the
longest leading run of decimal digits; `none` models `NaN` (no digit to
parse). -/
def parseIntJS (s : String) : Option Int :=
  let t := listTrim s.data
  let sign : Int := if t.head? == some '-' then -1 else 1
  let rest := if t.head? == some '-' || t.head? == some '+' then t.tail else t
  let ds := rest.takeWhile Char.isDigit
  if ds.isEmpty then none
  else some (sign * (ds.foldl (fun a c => 10 * a + (c.toNat - 48)) 0 : Nat))

/-- The settings the script resolves at init time (`src/benchmark.js`
lines 40-45).  `vus` and `warmupIterations` are `none` when `parseInt`
produced `NaN`. -/
structure Settings where
  serviceName : String
  baseUrl : String
  vus : Option Int
  duration : String
  warmupIterations : Option Int
  databaseType : String
deriving DecidableEq, Repr

/-- Init-time configuration resolution of `src/benchmark.js` lines 33 and
40-45: each key is `__ENV.KEY || envFile.KEY || '<default>'`, with the
two numeric keys passed through `parseInt`.  `env` is the `__ENV`
lookup (`none` = variable absent), `fileContent` the optional `.env`
file content.  Resolution is a total function: it has no failure
outcome. -/
def resolveSettings (env : String → Option String) (fileContent : Option String) : Settings :=
  let f := loadEnvFile fileContent
  let pick := fun (k dflt : String) => jsOr (env k) (jsOr (envFileGet f k) dflt)
  { serviceName := pick "SERVICE_NAME" "bookcatalog-nd-app"
    baseUrl := pick "BASE_URL" "http://localhost:8081/api/books"
    vus := parseIntJS (pick "VUS" "1")
    duration := pick "DURATION" "30s"
    warmupIterations := parseIntJS (pick "WARMUP_ITERATIONS" "0")
    databaseType := pick "DATABASE_TYPE" "sqlite" }

/-- C1: in every measurement-phase workload-unit execution, the create
sample is recorded first regardless of the create outcome; when the
extracted id is truthy (usable) the unit issues exactly the four requests
create, read, update, delete in order and emits exactly four samples, one
per kind; when the id is not usable it issues exactly the one create
request and emits exactly the one create-kind sample. -/
theorem runUnit_requests_and_samples (env : OpKind → Response) :
    ((runUnit env).samples.head? = some (.create, (env .create).duration)) ∧
    (jsTruthy (env .create).body_id = true →
      (runUnit env).requests = [.create, .read, .update, .delete] ∧
      (runUnit env).samples.map Prod.fst = [.create, .read, .update, .delete]) ∧
    (jsTruthy (env .create).body_id = false →
      (runUnit env).requests = [.create] ∧
      (runUnit env).samples.map Prod.fst = [.create]) := by
  cases h : jsTruthy (env .create).body_id <;>
    simp [runUnit, runUnitEvents, h]

/-- Witness for C1 at two concrete executions: a create response with the
truthy id `7` yields the four requests, one with JSON `null` id yields
only the create request and its sample. -/
theorem runUnit_requests_and_samples_witness :
    (runUnit (fun _ => ⟨200, 5, some (.vNum 7)⟩)).requests =
        [.create, .read, .update, .delete] ∧
    (runUnit (fun _ => ⟨500, 9, some .vNull⟩)).samples.map Prod.fst =
        [.create] :=
  ⟨((runUnit_requests_and_samples _).2.1 (by decide)).1,
   ((runUnit_requests_and_samples _).2.2 (by decide)).2⟩

/-- C9: when the created id is usable, the unit performs exactly four
100 ms pauses, and the event sequence places one pause directly after the
events of each of the create, read, update and delete steps; when the id
is not usable the unit performs no pause at all. -/
theorem runUnit_pauses (env : OpKind → Response) :
    (jsTruthy (env .create).body_id = true →
      (runUnit env).sleeps = 4 ∧
      runUnitEvents env =
        [.req .create, .sample .create (env .create).duration,
         .chk "POST status is 200" ((env .create).status == 200),
         .chk "POST response has ID" (jsNeNull (env .create).body_id)] ++
        [.pause] ++
        [.req .read, .sample .read (env .read).duration,
         .chk "GET status is 200" ((env .read).status == 200)] ++
        [.pause] ++
        [.req .update, .sample .update (env .update).duration,
         .chk "PUT status is 200" ((env .update).status == 200)] ++
        [.pause] ++
        [.req .delete, .sample .delete (env .delete).duration,
         .chk "DELETE status is 200" ((env .delete).status == 200)] ++
        [.pause]) ∧
    (jsTruthy (env .create).body_id = false →
      (runUnit env).sleeps = 0 ∧ .pause ∉ runUnitEvents env) := by
  cases h : jsTruthy (env .create).body_id <;>
    simp [runUnit, runUnitEvents, h, List.count_cons]

/-- Witness for C9 at two concrete executions: four pauses with a truthy
id, zero pauses with a missing id. -/
theorem runUnit_pauses_witness :
    (runUnit (fun _ => ⟨200, 5, some (.vStr "b1")⟩)).sleeps = 4 ∧
    (runUnit (fun _ => ⟨200, 5, none⟩)).sleeps = 0 :=
  ⟨((runUnit_pauses _).1 (by decide)).1, ((runUnit_pauses _).2 (by decide)).1⟩

/-- C10: the gate deciding whether the read/update/delete steps run is
JavaScript truthiness of the extracted id — the steps run exactly when
the id is truthy; hence an id equal to the number `0` or to the empty
string skips them, while a response with no id field at all also skips
them yet still passes the recorded `POST response has ID` check, because
`undefined !== null`. -/
theorem runUnit_gate_is_truthiness :
    (∀ env : OpKind → Response,
      (.req .read ∈ runUnitEvents env ∨ .req .update ∈ runUnitEvents env ∨
       .req .delete ∈ runUnitEvents env) ↔ jsTruthy (env .create).body_id = true) ∧
    (runUnit (fun _ => ⟨200, 5, some (.vNum 0)⟩)).requests = [.create] ∧
    (runUnit (fun _ => ⟨200, 5, some (.vStr "")⟩)).requests = [.create] ∧
    ((runUnit (fun _ => ⟨200, 5, none⟩)).requests = [.create] ∧
     ("POST response has ID", true) ∈ (runUnit (fun _ => ⟨200, 5, none⟩)).checks) := by
  refine ⟨?_, by decide, by decide, by decide, by decide⟩
  intro env
  cases h : jsTruthy (env .create).body_id <;> simp [runUnitEvents, h]

/-- Witness for C10's universally quantified conjunct at a concrete
execution with a truthy numeric id. -/
theorem runUnit_gate_is_truthiness_witness :
    (.req .read ∈ runUnitEvents (fun _ => ⟨200, 5, some (.vNum 3)⟩) ∨
     .req .update ∈ runUnitEvents (fun _ => ⟨200, 5, some (.vNum 3)⟩) ∨
     .req .delete ∈ runUnitEvents (fun _ => ⟨200, 5, some (.vNum 3)⟩)) :=
  (runUnit_gate_is_truthiness.1 (fun _ => ⟨200, 5, some (.vNum 3)⟩)).mpr (by decide)

/-- One warm-up iteration issues exactly one create request. -/
theorem warmupIter_count_create (r : OpKind → Response) :
    (warmupIter r).count .create = 1 := by
  cases h : jsTruthy (r .create).body_id <;> simp [warmupIter, h]

/-- One warm-up iteration issues at most one request of any kind. -/
theorem warmupIter_count_le (r : OpKind → Response) (k : OpKind) :
    (warmupIter r).count k ≤ 1 := by
  cases h : jsTruthy (r .create).body_id <;>
    cases k <;> simp [warmupIter, h, List.count_cons]

/-- The warm-up phase's request sequence is the concatenation of its
iterations' requests (the `W > 0` guard is redundant for `W = 0`). -/
theorem setupWarmup_requests_eq (W : Nat) (wenv : Nat → OpKind → Response) :
    (setupWarmup W wenv).requests = (List.range W).flatMap fun i => warmupIter (wenv i) := by
  cases W with
  | zero => simp [setupWarmup]
  | succ n => simp [setupWarmup]

/-- Across `W` warm-up iterations, exactly `W` create requests are
issued. -/
theorem warmup_count_create (W : Nat) (wenv : Nat → OpKind → Response) :
    ((List.range W).flatMap fun i => warmupIter (wenv i)).count .create = W := by
  induction W with
  | zero => simp
  | succ n ih =>
    rw [List.range_succ, List.flatMap_append, List.count_append, ih]
    simp [warmupIter_count_create (wenv n)]

/-- Across `W` warm-up iterations, at most `W` requests of each kind are
issued. -/
theorem warmup_count_le (W : Nat) (wenv : Nat → OpKind → Response) (k : OpKind) :
    (((List.range W).flatMap fun i => warmupIter (wenv i)).count k) ≤ W := by
  induction W with
  | zero => simp
  | succ n ih =>
    rw [List.range_succ, List.flatMap_append, List.count_append]
    simpa using Nat.add_le_add ih (warmupIter_count_le (wenv n) k)

/-- C2: for every warm-up count `W` and whatever the service answers, the
warm-up phase issues exactly `W` create requests and at most `W` each of
the read, update and delete requests, contributes no sample to the
latency trends of the final report, and with `W = 0` issues no request at
all. -/
theorem setupWarmup_bounds (W : Nat) (wenv : Nat → OpKind → Response) :
    ((setupWarmup W wenv).requests.count .create = W) ∧
    ((setupWarmup W wenv).requests.count .read ≤ W) ∧
    ((setupWarmup W wenv).requests.count .update ≤ W) ∧
    ((setupWarmup W wenv).requests.count .delete ≤ W) ∧
    ((setupWarmup W wenv).trendSamples = []) ∧
    (W = 0 → (setupWarmup W wenv).requests = []) := by
  rw [setupWarmup_requests_eq]
  refine ⟨warmup_count_create W wenv, warmup_count_le W wenv _, warmup_count_le W wenv _,
    warmup_count_le W wenv _, ?_, ?_⟩
  · cases W <;> simp [setupWarmup]
  · rintro rfl; simp

/-- Witness for C2 at concrete warm-up runs: with `W = 2` and truthy ids,
exactly two creates; with `W = 0`, no requests. -/
theorem setupWarmup_bounds_witness :
    ((setupWarmup 2 (fun _ _ => ⟨200, 5, some (.vNum 1)⟩)).requests.count .create = 2) ∧
    ((setupWarmup 0 (fun _ _ => ⟨200, 5, some (.vNum 1)⟩)).requests = []) :=
  ⟨(setupWarmup_bounds 2 _).1, (setupWarmup_bounds 0 _).2.2.2.2.2 rfl⟩

/-- Evaluation rule for `toFixed2` at a value whose scaled rounding is a
known natural number. -/
theorem toFixed2_eval (q : Rat) (n : Nat) (h : round (q * 100) = (n : Int)) :
    toFixed2 q = natToStr (n / 100) ++ "." ++ pad2 (n % 100) := by
  unfold toFixed2
  rw [h]
  have hn : ¬ ((n : Int) < 0) := by omega
  simp [hn]

/-- The fractional part of a two-decimal rendering always has exactly two
characters. -/
theorem pad2_length (k : Nat) (h : k < 100) : (pad2 k).length = 2 := by
  interval_cases k <;> decide

/-- The CSV file name is never one of the reserved stream keys: it is at
least 25 characters long. -/
theorem bookcatalog_filename_ne (dbType : String) (now : Nat) (s : String)
    (h : s.length < 20) :
    ("bookcatalog_results_" ++ dbType ++ "_" ++ natToStr now ++ ".csv") ≠ s := by
  intro he
  have hl := congrArg String.length he
  simp [String.length_append] at hl
  rw [show ("bookcatalog_results_").length = 20 from rfl,
      show ("_").length = 1 from rfl, show (".csv").length = 4 from rfl] at hl
  omega

/-- C3: in the final report the overall average is the unweighted
arithmetic mean `(get + create + update + delete) / 4` of the four
per-kind averages (each substituted by `0` when absent), not a
sample-weighted mean; in the scenario with per-kind averages
create = 10, read = 20, update = 30 and delete = 40 the overall is `25`
and the persisted CSV content is exactly the header line followed by the
data row `20.00,10.00,30.00,40.00,25.00`. -/
theorem handleSummary_overall_unweighted (m : Metrics) (dbType : String) (now : Nat) :
    ((handleSummary m dbType now).overall =
      (m.get_book_latency.getD 0 + m.create_book_latency.getD 0 +
       m.update_book_latency.getD 0 + m.delete_book_latency.getD 0) / 4) ∧
    ((handleSummary scenarioMetrics "sqlite" now).avgCreate = 10 ∧
     (handleSummary scenarioMetrics "sqlite" now).avgGet = 20 ∧
     (handleSummary scenarioMetrics "sqlite" now).avgUpdate = 30 ∧
     (handleSummary scenarioMetrics "sqlite" now).avgDelete = 40 ∧
     (handleSummary scenarioMetrics "sqlite" now).overall = 25 ∧
     ("bookcatalog_results_sqlite_" ++ natToStr now ++ ".csv",
      "get_latency,create_latency,update_latency,delete_latency,overall_latency\n" ++
      "20.00,10.00,30.00,40.00,25.00\n") ∈ (handleSummary scenarioMetrics "sqlite" now).outputs) := by
  have hm : scenarioMetrics = ⟨some 20, some 10, some 30, some 40⟩ := by
    simp [scenarioMetrics, metricsOf, trendMetric, Trend.avg]
    norm_num
  have t10 : toFixed2 10 = "10.00" := by
    rw [toFixed2_eval 10 1000 (by norm_num [round_eq])]; decide
  have t20 : toFixed2 20 = "20.00" := by
    rw [toFixed2_eval 20 2000 (by norm_num [round_eq])]; decide
  have t30 : toFixed2 30 = "30.00" := by
    rw [toFixed2_eval 30 3000 (by norm_num [round_eq])]; decide
  have t40 : toFixed2 40 = "40.00" := by
    rw [toFixed2_eval 40 4000 (by norm_num [round_eq])]; decide
  have t25 : toFixed2 25 = "25.00" := by
    rw [toFixed2_eval 25 2500 (by norm_num [round_eq])]; decide
  have hval : (((20:Rat)) + 10 + 30 + 40) / 4 = 25 := by norm_num
  refine ⟨by simp [handleSummary], ?_⟩
  rw [hm]
  refine ⟨rfl, rfl, rfl, rfl, by norm_num [handleSummary], ?_⟩
  simp only [handleSummary, Option.getD_some, hval, t10, t20, t30, t40, t25]
  simp

/-- C5: an operation kind with zero recorded samples does not fail the
report: its per-kind average is substituted with `0`, it contributes `0`
to the overall average, and a console warning naming the unavailable
metric is written (`handleSummary` is a total function, so report
building has no error outcome). -/
theorem handleSummary_missing_metric_defaults (g c u d : Trend) (dbType : String) (now : Nat) :
    (g = [] →
      (handleSummary (metricsOf g c u d) dbType now).avgGet = 0 ∧
      (handleSummary (metricsOf g c u d) dbType now).overall =
        (0 + (metricsOf g c u d).create_book_latency.getD 0 +
         (metricsOf g c u d).update_book_latency.getD 0 +
         (metricsOf g c u d).delete_book_latency.getD 0) / 4 ∧
      "Warning: GET latency metrics not available" ∈
        (handleSummary (metricsOf g c u d) dbType now).logs) ∧
    (c = [] →
      (handleSummary (metricsOf g c u d) dbType now).avgCreate = 0 ∧
      "Warning: CREATE latency metrics not available" ∈
        (handleSummary (metricsOf g c u d) dbType now).logs) ∧
    (u = [] →
      (handleSummary (metricsOf g c u d) dbType now).avgUpdate = 0 ∧
      "Warning: UPDATE latency metrics not available" ∈
        (handleSummary (metricsOf g c u d) dbType now).logs) ∧
    (d = [] →
      (handleSummary (metricsOf g c u d) dbType now).avgDelete = 0 ∧
      "Warning: DELETE latency metrics not available" ∈
        (handleSummary (metricsOf g c u d) dbType now).logs) := by
  refine ⟨?_, ?_, ?_, ?_⟩ <;> rintro rfl <;>
    simp [handleSummary, metricsOf, trendMetric]

/-- Witness for C5 at a concrete report whose GET trend is empty: the GET
average is `0` and the warning is logged. -/
theorem handleSummary_missing_metric_defaults_witness :
    (handleSummary (metricsOf [] [5] [5] [5]) "sqlite" 0).avgGet = 0 ∧
    "Warning: GET latency metrics not available" ∈
      (handleSummary (metricsOf [] [5] [5] [5]) "sqlite" 0).logs :=
  ⟨((handleSummary_missing_metric_defaults [] [5] [5] [5] "sqlite" 0).1 rfl).1,
   ((handleSummary_missing_metric_defaults [] [5] [5] [5] "sqlite" 0).1 rfl).2.2⟩

/-- C4 (amended): the `handleSummary` of `src/unnamed/part_000` persists
exactly one file, named `bookcatalog_results_<DATABASE_TYPE>_<Date.now()>.csv`,
whose content is the fixed header line followed by the single data row of
the five averages rendered by `toFixed2`; `toFixed2` always renders
exactly two decimal places.  (The `src/benchmark.js` variant's
`handleSummary` persists no file — see the counterexample.) -/
theorem handleSummary_persists_single_csv (m : Metrics) (dbType : String) (now : Nat) :
    (fileOutputs (handleSummary m dbType now).outputs =
      [("bookcatalog_results_" ++ dbType ++ "_" ++ natToStr now ++ ".csv",
        "get_latency,create_latency,update_latency,delete_latency,overall_latency\n" ++
        (toFixed2 (handleSummary m dbType now).avgGet ++ "," ++
         toFixed2 (handleSummary m dbType now).avgCreate ++ "," ++
         toFixed2 (handleSummary m dbType now).avgUpdate ++ "," ++
         toFixed2 (handleSummary m dbType now).avgDelete ++ "," ++
         toFixed2 (handleSummary m dbType now).overall ++ "\n"))]) ∧
    (∀ q : Rat, ∃ s : String, ∃ k : Nat, k < 100 ∧ (pad2 k).length = 2 ∧
      toFixed2 q = s ++ "." ++ pad2 k) := by
  constructor
  · have h1 : ("bookcatalog_results_" ++ dbType ++ "_" ++ natToStr now ++ ".csv") ≠ "stdout" :=
      bookcatalog_filename_ne dbType now _ (by decide)
    have h2 : ("bookcatalog_results_" ++ dbType ++ "_" ++ natToStr now ++ ".csv") ≠ "stderr" :=
      bookcatalog_filename_ne dbType now _ (by decide)
    simp [handleSummary, fileOutputs, h1, h2]
  · intro q
    refine ⟨(if round (q * 100) < 0 then "-" else "") ++
        natToStr ((round (q * 100)).natAbs / 100),
      (round (q * 100)).natAbs % 100, Nat.mod_lt _ (by norm_num),
      pad2_length _ (Nat.mod_lt _ (by norm_num)), rfl⟩

/-- C4 (counterexample): the `handleSummary` of `src/benchmark.js`
returns only the `stdout` entry of the rendered text summary, so that
variant persists no CSV file at all — the claim's "persists exactly one
CSV file" fails on it. -/
theorem handleSummaryJS_no_file_output :
    fileOutputs (handleSummaryJS "sample k6 text summary") = [] := rfl

/-- With enough fuel, the fuelled digit function agrees with
`Nat.digits 10`. -/
theorem natDigitsAux_eq_digits (fuel n : Nat) (h : n ≤ fuel) :
    natDigitsAux fuel n = Nat.digits 10 n := by
  induction fuel generalizing n with
  | zero =>
    interval_cases n
    simp [natDigitsAux]
  | succ f ih =>
    cases n with
    | zero => simp [natDigitsAux]
    | succ m =>
      have hd : (m + 1) / 10 < m + 1 := Nat.div_lt_self (Nat.succ_pos m) (by norm_num)
      rw [natDigitsAux, ih _ (by omega), Nat.digits_def' (by norm_num : 1 < 10) (Nat.succ_pos m)]

/-- The digit-to-character map is injective on digits. -/
theorem charDigit_inj (d e : Nat) (hd : d < 10) (he : e < 10)
    (h : Char.ofNat (48 + d) = Char.ofNat (48 + e)) : d = e := by
  interval_cases d <;> interval_cases e <;> first | rfl | (exfalso; exact absurd h (by decide))

/-- The digit-to-character map lands in the decimal digit characters. -/
theorem charDigit_isDigit (d : Nat) (hd : d < 10) : (Char.ofNat (48 + d)).isDigit = true := by
  interval_cases d <;> decide

/-- Mapping the digit-to-character function over digit lists is
injective. -/
theorem map_charDigit_inj (l1 l2 : List Nat) (h1 : ∀ d ∈ l1, d < 10) (h2 : ∀ d ∈ l2, d < 10)
    (h : l1.map (fun d => Char.ofNat (48 + d)) = l2.map (fun d => Char.ofNat (48 + d))) :
    l1 = l2 := by
  induction l1 generalizing l2 with
  | nil => cases l2 <;> simp_all
  | cons a t ih =>
    cases l2 with
    | nil => simp_all
    | cons b u =>
      simp only [List.map_cons, List.cons.injEq] at h
      have hab := charDigit_inj a b (h1 a (by simp)) (h2 b (by simp)) h.1
      have htu := ih u (fun d hm => h1 d (by simp [hm])) (fun d hm => h2 d (by simp [hm])) h.2
      rw [hab, htu]

/-- Every entry of a reversed base-10 digit list is below 10. -/
theorem digits_rev_lt (n : Nat) : ∀ d ∈ (Nat.digits 10 n).reverse, d < 10 :=
  fun d hm => Nat.digits_lt_base (by norm_num) (List.mem_reverse.mp hm)

/-- Only zero renders as the string `0`. -/
theorem natToStr_eq_zero_str (n : Nat) (h : natToStr n = "0") : n = 0 := by
  by_cases hn : n = 0
  · exact hn
  rw [natToStr, if_neg hn, natDigitsAux_eq_digits n n le_rfl] at h
  have hd : (Nat.digits 10 n).reverse.map (fun d => Char.ofNat (48 + d)) = ("0").data :=
    congrArg String.data h
  have h0 : ("0").data = [0].map (fun d => Char.ofNat (48 + d)) := by decide
  rw [h0] at hd
  have heq := map_charDigit_inj _ _ (digits_rev_lt n) (by simp) hd
  have hrev := congrArg List.reverse heq
  simp at hrev
  have hv := congrArg (Nat.ofDigits 10) hrev
  rw [Nat.ofDigits_digits] at hv
  simp [Nat.ofDigits] at hv
  exact absurd hv hn

/-- Decimal rendering of naturals is injective. -/
theorem natToStr_inj (m n : Nat) (h : natToStr m = natToStr n) : m = n := by
  by_cases hm : m = 0
  · subst hm
    have : ("0") = natToStr n := by rw [← h]; rfl
    rw [natToStr_eq_zero_str n this.symm]
  by_cases hn : n = 0
  · subst hn
    have : natToStr m = "0" := by rw [h]; rfl
    rw [natToStr_eq_zero_str m this]
  rw [natToStr, natToStr, if_neg hm, if_neg hn,
      natDigitsAux_eq_digits m m le_rfl, natDigitsAux_eq_digits n n le_rfl] at h
  have hd : (Nat.digits 10 m).reverse.map (fun d => Char.ofNat (48 + d)) =
      (Nat.digits 10 n).reverse.map (fun d => Char.ofNat (48 + d)) :=
    congrArg String.data h
  have hrev := List.reverse_injective
    (map_charDigit_inj _ _ (digits_rev_lt m) (digits_rev_lt n) hd)
  have := congrArg (Nat.ofDigits 10) hrev
  rwa [Nat.ofDigits_digits, Nat.ofDigits_digits] at this

/-- Every character of a rendered natural is a decimal digit. -/
theorem natToStr_all_digits (n : Nat) : ∀ c ∈ (natToStr n).data, c.isDigit = true := by
  by_cases hn : n = 0
  · subst hn; intro c hc; simp [natToStr] at hc; subst hc; decide
  rw [natToStr, if_neg hn, natDigitsAux_eq_digits n n le_rfl]
  intro c hc
  simp only [String.mk] at hc
  simp only [List.mem_map] at hc
  obtain ⟨d, hdm, rfl⟩ := hc
  exact charDigit_isDigit d (digits_rev_lt n d hdm)

/-- Splitting at the separating underscore is unambiguous when both
left parts contain only digit characters. -/
theorem underscore_split_inj : ∀ (a : List Char), (∀ x ∈ a, x.isDigit = true) →
    ∀ (c : List Char), (∀ x ∈ c, x.isDigit = true) →
    ∀ b d : List Char, a ++ '_' :: b = c ++ '_' :: d → a = c ∧ b = d := by
  intro a
  induction a with
  | nil =>
    intro _ c hc b d h
    cases c with
    | nil => simpa using h
    | cons y ys =>
      simp only [List.nil_append, List.cons_append, List.cons.injEq] at h
      exact absurd (hc y (by simp)) (by rw [← h.1]; decide)
  | cons x xs ih =>
    intro ha c hc b d h
    cases c with
    | nil =>
      simp only [List.cons_append, List.nil_append, List.cons.injEq] at h
      exact absurd (ha x (by simp)) (by rw [h.1]; decide)
    | cons y ys =>
      simp only [List.cons_append, List.cons.injEq] at h
      obtain ⟨rfl, htail⟩ := h
      obtain ⟨h1, h2⟩ := ih (fun z hz => ha z (by simp [hz])) ys
        (fun z hz => hc z (by simp [hz])) b d htail
      exact ⟨by rw [h1], h2⟩

/-- Identities of the shape `<prefix><vu>_<iter>` determine the pair
`(vu, iter)`. -/
theorem prefixed_pair_inj (p : String) (vu iter vu' iter' : Nat)
    (h : p ++ natToStr vu ++ "_" ++ natToStr iter =
         p ++ natToStr vu' ++ "_" ++ natToStr iter') :
    vu = vu' ∧ iter = iter' := by
  have hd := congrArg String.data h
  simp only [String.data_append, List.append_assoc] at hd
  have hc := List.append_cancel_left hd
  simp only [List.singleton_append] at hc
  obtain ⟨h1, h2⟩ := underscore_split_inj _ (natToStr_all_digits vu) _
    (natToStr_all_digits vu') _ _ hc
  exact ⟨natToStr_inj _ _ (String.ext h1), natToStr_inj _ _ (String.ext h2)⟩

/-- A warm-up identity never coincides with a measurement identity: the
two label prefixes already differ in the first character. -/
theorem warmupTitle_ne (i vu iter : Nat) : warmupTitle i ≠ testTitle vu iter := by
  intro h
  have hd := congrArg String.data h
  have h1 : (warmupTitle i).data.head? = some 'W' := by
    rw [warmupTitle, String.data_append]; rfl
  have h2 : (testTitle vu iter).data.head? = some 'T' := by
    rw [testTitle, String.data_append, String.data_append, String.data_append]; rfl
  have := congrArg List.head? hd
  rw [h1, h2] at this
  exact absurd this (by decide)

/-- C8: the entity-identity generator is injective — distinct
(worker index, iteration counter) pairs yield distinct generated book
titles and distinct generated authors — and every warm-up identity
(label `Warmup`) differs from every measurement identity (label
`Test`). -/
theorem identity_generator_injective :
    (∀ vu iter vu' iter' : Nat,
      testTitle vu iter = testTitle vu' iter' → vu = vu' ∧ iter = iter') ∧
    (∀ vu iter vu' iter' : Nat,
      testAuthor vu iter = testAuthor vu' iter' → vu = vu' ∧ iter = iter') ∧
    (∀ i vu iter : Nat, warmupTitle i ≠ testTitle vu iter) :=
  ⟨fun a b c d h => prefixed_pair_inj "Test Book " a b c d h,
   fun a b c d h => prefixed_pair_inj "Test Author " a b c d h,
   warmupTitle_ne⟩

/-- Witness for C8 at concrete identities: the same worker with two
different iteration counters gets two different titles, and a warm-up
title differs from a measurement title. -/
theorem identity_generator_injective_witness :
    testTitle 0 0 ≠ testTitle 0 1 ∧ warmupTitle 0 ≠ testTitle 0 0 :=
  ⟨fun h => absurd (identity_generator_injective.1 0 0 0 1 h).2 (by decide),
   identity_generator_injective.2.2 0 0 0⟩

/-- C6 (counterexample): a config file line `SERVICE_NAME=` defines the
key `SERVICE_NAME` (with the empty value), yet resolution returns the
hard-coded default rather than that file value, because the JavaScript
`||` chain treats the empty string as falsy — refuting the claim that a
key defined by the file is always used when the environment variable is
absent. -/
theorem envfile_empty_value_uses_default :
    envFileGet (loadEnvFile (some "SERVICE_NAME=")) "SERVICE_NAME" = some "" ∧
    (resolveSettings (fun _ => none) (some "SERVICE_NAME=")).serviceName =
      "bookcatalog-nd-app" ∧
    "bookcatalog-nd-app" ≠ "" := ⟨by decide, by decide, by decide⟩

/-- C6 (amended): per key, resolution takes the environment value when
present and non-empty, otherwise the file value when the file defines the
key with a NON-EMPTY value, otherwise the hard-coded default
(`bookcatalog-nd-app`, VUS 1, `30s`, warm-up 0, `sqlite`); the file
parser ignores blank lines and `#` comments, strips surrounding quotes
from values, and a missing or unreadable file yields no keys. -/
theorem config_resolution_order (env : String → Option String) (f : Option String)
    (ev fv : Option String) (dflt v w : String) :
    (ev = some v → v ≠ "" → jsOr ev (jsOr fv dflt) = v) ∧
    ((ev = none ∨ ev = some "") → fv = some w → w ≠ "" → jsOr ev (jsOr fv dflt) = w) ∧
    ((ev = none ∨ ev = some "") → (fv = none ∨ fv = some "") →
      jsOr ev (jsOr fv dflt) = dflt) ∧
    ((resolveSettings env f).serviceName =
      jsOr (env "SERVICE_NAME")
        (jsOr (envFileGet (loadEnvFile f) "SERVICE_NAME") "bookcatalog-nd-app")) ∧
    ((resolveSettings env f).vus =
      parseIntJS (jsOr (env "VUS") (jsOr (envFileGet (loadEnvFile f) "VUS") "1"))) ∧
    ((resolveSettings env f).warmupIterations =
      parseIntJS (jsOr (env "WARMUP_ITERATIONS")
        (jsOr (envFileGet (loadEnvFile f) "WARMUP_ITERATIONS") "0"))) ∧
    ((resolveSettings env f).duration =
      jsOr (env "DURATION") (jsOr (envFileGet (loadEnvFile f) "DURATION") "30s")) ∧
    ((resolveSettings env f).databaseType =
      jsOr (env "DATABASE_TYPE") (jsOr (envFileGet (loadEnvFile f) "DATABASE_TYPE") "sqlite")) ∧
    (resolveSettings (fun _ => none) none =
      ⟨"bookcatalog-nd-app", "http://localhost:8081/api/books", some 1, "30s",
       some 0, "sqlite"⟩) ∧
    (loadEnvFile none = [] ∧
     loadEnvFile (some "# comment\n\nA=1\n B = '2' \nnoequals\n=x") =
       [("A", "1"), ("B", "2")]) := by
  refine ⟨?_, ?_, ?_, rfl, rfl, rfl, rfl, rfl, by decide, by decide, by decide⟩
  · rintro rfl hv; simp [jsOr, hv]
  · rintro (rfl | rfl) rfl hw <;> simp [jsOr, hw]
  · rintro (rfl | rfl) (rfl | rfl) <;> simp [jsOr]

/-- Witness for C6 at concrete chains: an empty environment value falls
through to a non-empty file value, and with neither the default wins. -/
theorem config_resolution_order_witness :
    jsOr (some "") (jsOr (some "filevalue") "dflt") = "filevalue" ∧
    jsOr none (jsOr none "dflt") = "dflt" :=
  ⟨(config_resolution_order (fun _ => none) none (some "") (some "filevalue")
      "dflt" "" "filevalue").2.1 (Or.inr rfl) rfl (by decide),
   (config_resolution_order (fun _ => none) none none none "dflt" "" "").2.2.1
      (Or.inl rfl) (Or.inl rfl)⟩

/-- C7 (counterexample): with the non-numeric concurrency setting
`VUS=abc` the script does not fail at all — configuration resolution
completes, the remaining settings resolve normally, and `vus` is the
`parseInt` failure value `NaN` (modelled `none`), refuting the claim
that resolution fails the run fast before scheduling. -/
theorem resolveSettings_nonnumeric_proceeds :
    (resolveSettings (fun k => if k = "VUS" then some "abc" else none) none).vus = none ∧
    (resolveSettings (fun k => if k = "VUS" then some "abc" else none) none).serviceName =
      "bookcatalog-nd-app" ∧
    (resolveSettings (fun k => if k = "VUS" then some "abc" else none) none).duration =
      "30s" := ⟨by decide, by decide, by decide⟩

/-- C7 (amended): configuration resolution never fails: for a non-empty
environment `VUS` the resolved concurrency is just `parseInt` of it —
`NaN` (`none`) when non-numeric, e.g. `abc` — while every other setting
still resolves, so the run proceeds to scheduling with the unvalidated
value instead of failing fast. -/
theorem resolveSettings_no_fail_fast (env : String → Option String) (f : Option String)
    (s : String) :
    (env "VUS" = some s → s ≠ "" → (resolveSettings env f).vus = parseIntJS s) ∧
    ((resolveSettings env f).serviceName =
      jsOr (env "SERVICE_NAME")
        (jsOr (envFileGet (loadEnvFile f) "SERVICE_NAME") "bookcatalog-nd-app")) ∧
    parseIntJS "abc" = none := by
  refine ⟨?_, rfl, by decide⟩
  intro h hne
  simp [resolveSettings, h, jsOr, hne]

/-- Witness for C7 at the concrete malformed setting `VUS=abc`. -/
theorem resolveSettings_no_fail_fast_witness :
    (resolveSettings (fun k => if k = "VUS" then some "abc" else none) none).vus =
      parseIntJS "abc" :=
  (resolveSettings_no_fail_fast (fun k => if k = "VUS" then some "abc" else none)
    none "abc").1 rfl (by decide)

end Bench
